import Mathlib

/-!
Verification of the config-plane repository engine
(packages/config-plane/config_plane): a branched, versioned configuration
store with an in-memory backend (impl/memory.py) and a relational backend
(impl/sql.py).  Python dicts and SQL tables are embedded as association
lists; mutable objects become explicit state passing; methods that raise
become functions into Except.
-/

namespace ConfigPlane

/-- Blobs are opaque byte sequences (config_plane.base.Blob = bytes);
bytes are modelled as lists of naturals. -/
abbrev Blob := List Nat

abbrev Key := String

/-- Python dict / SQL primary-key lookup on an association list:
the first entry with the given key wins. -/
def alget {κ α : Type} [DecidableEq κ] (m : List (κ × α)) (k : κ) : Option α :=
  match m with
  | [] => none
  | (k', v) :: rest => if k' = k then some v else alget rest k

/-- Python dict store / SQL upsert: update the first entry with the given
key in place, or append a new entry when the key is absent. -/
def alset {κ α : Type} [DecidableEq κ] (m : List (κ × α)) (k : κ) (v : α) :
    List (κ × α) :=
  match m with
  | [] => [(k, v)]
  | (k', v') :: rest => if k' = k then (k', v) :: rest else (k', v') :: alset rest k v

/-- Python dict del: remove the first entry with the given key. -/
def aldel {κ α : Type} [DecidableEq κ] (m : List (κ × α)) (k : κ) :
    List (κ × α) :=
  match m with
  | [] => []
  | (k', v') :: rest => if k' = k then rest else (k', v') :: aldel rest k

/-- Error kinds of the repository contract (spec section 7); the Python
implementations raise RuntimeError for the dirty-stage guard,
ValueError for an existing target branch and for a missing source
branch, and NotImplementedError for an operation the backend does not
override. -/
inductive RepoError where
  | dirtyStage : RepoError
  | branchExists (name : String) : RepoError
  | missingBranch (name : String) : RepoError
  | notImplemented : RepoError
deriving DecidableEq, Repr

/-! ## Memory backend (config_plane/impl/memory.py) -/

/-- MemoryConfigSnapshot: an immutable key-to-blob dict. -/
structure MemoryConfigSnapshot where
  data : List (Key × Blob)
deriving DecidableEq, Repr

/-- MemoryConfigSnapshot.get: dict lookup. -/
def MemoryConfigSnapshot.get (s : MemoryConfigSnapshot) (k : Key) : Option Blob :=
  alget s.data k

/-- MemoryConfigStage: parent snapshot plus override dict
(created with an empty override dict). -/
structure MemoryConfigStage where
  snapshot : MemoryConfigSnapshot
  data : List (Key × Blob)
deriving DecidableEq, Repr

/-- MemoryConfigStage.get: override dict first, else the parent snapshot. -/
def MemoryConfigStage.get (st : MemoryConfigStage) (k : Key) : Option Blob :=
  match alget st.data k with
  | some v => some v
  | none => st.snapshot.get k

/-- MemoryConfigStage.set: a value stores an override; None deletes the
override when the key is tracked (del self.data[key]) and otherwise does
nothing. No tombstone is recorded. -/
def MemoryConfigStage.set (st : MemoryConfigStage) (k : Key) (v : Option Blob) :
    MemoryConfigStage :=
  match v with
  | none =>
      if (alget st.data k).isSome then { st with data := aldel st.data k } else st
  | some b => { st with data := alset st.data k b }

/-- MemoryConfigStage.is_dirty: len(self.data) > 0. -/
def MemoryConfigStage.is_dirty (st : MemoryConfigStage) : Bool :=
  decide (st.data.length > 0)

/-- MemoryConfigStage.freeze: the parent dict updated by the override dict,
as the Python double-splat merge. -/
def MemoryConfigStage.freeze (st : MemoryConfigStage) : MemoryConfigSnapshot :=
  ⟨st.data.foldl (fun acc kv => alset acc kv.1 kv.2) st.snapshot.data⟩

/-- MemoryConfigRepo: the shared branch-name-to-dict map, the current
branch, the base snapshot and the stage. -/
structure MemoryConfigRepo where
  repo : List (Key × List (Key × Blob))
  branch : String
  base : MemoryConfigSnapshot
  stage : MemoryConfigStage
deriving DecidableEq, Repr

/-- MemoryConfigRepo.reload: re-read the base snapshot for the current
branch (empty dict when the branch is unknown) and start a fresh stage. -/
def MemoryConfigRepo.reload (r : MemoryConfigRepo) : MemoryConfigRepo :=
  let base : MemoryConfigSnapshot := ⟨(alget r.repo r.branch).getD []⟩
  { r with base := base, stage := ⟨base, []⟩ }

/-- MemoryConfigRepo construction: store the shared map and branch, then
reload (the branch parameter defaults to master at call sites). -/
def MemoryConfigRepo.init (repo_data : List (Key × List (Key × Blob)))
    (branch : String) : MemoryConfigRepo :=
  MemoryConfigRepo.reload
    { repo := repo_data, branch := branch, base := ⟨[]⟩, stage := ⟨⟨[]⟩, []⟩ }

/-- MemoryConfigRepo.get delegates to the stage. -/
def MemoryConfigRepo.get (r : MemoryConfigRepo) (k : Key) : Option Blob :=
  r.stage.get k

/-- MemoryConfigRepo.set delegates to the stage. -/
def MemoryConfigRepo.set (r : MemoryConfigRepo) (k : Key) (v : Option Blob) :
    MemoryConfigRepo :=
  { r with stage := r.stage.set k v }

/-- MemoryConfigRepo.is_dirty delegates to the stage. -/
def MemoryConfigRepo.is_dirty (r : MemoryConfigRepo) : Bool :=
  r.stage.is_dirty

/-- MemoryConfigRepo.commit: early return when the stage is clean; else
freeze the stage, store the frozen dict under the current branch and
start a fresh stage on the new base. -/
def MemoryConfigRepo.commit (r : MemoryConfigRepo) : MemoryConfigRepo :=
  if r.stage.is_dirty then
    let new_base := r.stage.freeze
    { r with repo := alset r.repo r.branch new_base.data,
             base := new_base,
             stage := ⟨new_base, []⟩ }
  else r

/-- MemoryConfigRepo.switch_branch: RuntimeError while dirty; else
re-point to the named branch and reload. The branch name is not checked
against the stored map. -/
def MemoryConfigRepo.switch_branch (r : MemoryConfigRepo) (branch : String) :
    Except RepoError MemoryConfigRepo :=
  if r.stage.is_dirty then Except.error RepoError.dirtyStage
  else Except.ok (MemoryConfigRepo.reload { r with branch := branch })

/-- MemoryConfigRepo.create_branch: ValueError when the new name already
exists; otherwise copy the source dict (empty when the source branch is
absent; the guard for a missing non-master source is dead code ending in
pass). -/
def MemoryConfigRepo.create_branch (r : MemoryConfigRepo) (new_branch : String)
    (from_branch : Option String) : Except RepoError MemoryConfigRepo :=
  if (alget r.repo new_branch).isSome then
    Except.error (RepoError.branchExists new_branch)
  else
    let source := from_branch.getD r.branch
    let data := (alget r.repo source).getD []
    Except.ok { r with repo := alset r.repo new_branch data }

/-- MemoryConfigRepo.list_branches: the keys of the shared map. -/
def MemoryConfigRepo.list_branches (r : MemoryConfigRepo) : List String :=
  r.repo.map Prod.fst

/-- MemoryConfigRepo.merge: not overridden, so the base-class
ConfigRepo.merge (base.py) runs and raises NotImplementedError. -/
def MemoryConfigRepo.merge (_ : MemoryConfigRepo) (_ : String) :
    Except RepoError MemoryConfigRepo :=
  Except.error RepoError.notImplemented

/-! ## Relational backend (config_plane/impl/sql.py)

The four tables are embedded as association lists keyed by their primary
keys; autoincrement ids become explicit counters.  ORM inserts of rows
with a fresh autoincrement id and in-place row updates are both modelled
by alset (update-or-append). -/

/-- The relational store: blobs(id, content), snapshots(id, parent_id,
committed), snapshot_items((snapshot_id, key), blob_id nullable) and
branches(name, snapshot_id), plus the autoincrement counters. -/
structure SqlDb where
  blobs : List (Nat × Blob)
  snapshots : List (Nat × (Option Nat × Bool))
  items : List ((Nat × Key) × Option Nat)
  branches : List (String × Nat)
  next_blob_id : Nat
  next_snapshot_id : Nat
deriving DecidableEq, Repr

/-- The empty relational store. -/
def emptySqlDb : SqlDb := ⟨[], [], [], [], 0, 0⟩

/-- SqlConfigRepo state held in the Python object: the current branch,
the id of the parent snapshot (None when the branch had no head) and the
id of the live stage snapshot. -/
structure SqlConfigRepo where
  branch : String
  parent_snapshot : Option Nat
  stage_snapshot_id : Nat
deriving DecidableEq, Repr

/-- The rows of snapshot_items belonging to one snapshot id, as
(key, blob_id) pairs, in table order. -/
def itemsFor (items : List ((Nat × Key) × Option Nat)) (sid : Nat) :
    List (Key × Option Nat) :=
  match items with
  | [] => []
  | ((p, k), b) :: rest =>
      if p = sid then (k, b) :: itemsFor rest sid else itemsFor rest sid

/-- Membership test of a key in a key list (the NOT IN subselect of
_finalize_commit). -/
def keyMem (k : Key) (ks : List Key) : Bool :=
  match ks with
  | [] => false
  | k' :: rest => if k' = k then true else keyMem k rest

/-- The parent rows copied into the committing snapshot: those whose key
is not among the stage snapshot keys. -/
def inheritRows (parentItems : List (Key × Option Nat)) (stageKeys : List Key) :
    List (Key × Option Nat) :=
  match parentItems with
  | [] => []
  | (k, b) :: rest =>
      if keyMem k stageKeys then inheritRows rest stageKeys
      else (k, b) :: inheritRows rest stageKeys

/-- SqlConfigSnapshot.get: read the single SnapshotItem of this snapshot
for the key; no row or a NULL blob_id yields absent, otherwise the blob
content (committed snapshots are self-contained, so no parent walk). -/
def sqlSnapshotGet (db : SqlDb) (sid : Nat) (k : Key) : Option Blob :=
  match alget db.items (sid, k) with
  | none => none
  | some none => none
  | some (some bid) =>
      match alget db.blobs bid with
      | some b => some b
      | none => none

/-- SqlConfigStage.get: the stage snapshot row first (NULL blob_id is a
tombstone), else delegate to the parent snapshot, else absent. -/
def sqlStageGet (db : SqlDb) (repo : SqlConfigRepo) (k : Key) : Option Blob :=
  match alget db.items (repo.stage_snapshot_id, k) with
  | some none => none
  | some (some bid) =>
      match alget db.blobs bid with
      | some b => some b
      | none => none
  | none =>
      match repo.parent_snapshot with
      | some pid => sqlSnapshotGet db pid k
      | none => none

/-- SqlConfigStage.set: upsert the SnapshotItem of the live stage
snapshot.  When the row exists: None nulls its blob_id; a value is
written into the existing blob in place, or a fresh blob is inserted and
relinked when the row has no (live) blob.  When the row is missing, a
fresh blob (or NULL for a deletion) and a new row are inserted. -/
def sqlSet (db : SqlDb) (repo : SqlConfigRepo) (k : Key) (v : Option Blob) :
    SqlDb :=
  let sid := repo.stage_snapshot_id
  match alget db.items (sid, k) with
  | some bidOpt =>
      match v with
      | none => { db with items := alset db.items (sid, k) none }
      | some val =>
          match bidOpt with
          | some bid =>
              match alget db.blobs bid with
              | some _ => { db with blobs := alset db.blobs bid val }
              | none =>
                  let nb := db.next_blob_id
                  { db with blobs := alset db.blobs nb val,
                            items := alset db.items (sid, k) (some nb),
                            next_blob_id := nb + 1 }
          | none =>
              let nb := db.next_blob_id
              { db with blobs := alset db.blobs nb val,
                        items := alset db.items (sid, k) (some nb),
                        next_blob_id := nb + 1 }
  | none =>
      match v with
      | none => { db with items := alset db.items (sid, k) none }
      | some val =>
          let nb := db.next_blob_id
          { db with blobs := alset db.blobs nb val,
                    items := alset db.items (sid, k) (some nb),
                    next_blob_id := nb + 1 }

/-- SqlConfigStage.is_dirty: true iff at least one SnapshotItem row
exists for the live stage snapshot. -/
def sqlIsDirty (db : SqlDb) (repo : SqlConfigRepo) : Bool :=
  match itemsFor db.items repo.stage_snapshot_id with
  | [] => false
  | _ :: _ => true

/-- SqlConfigStage._finalize_commit: copy every parent row whose key the
stage does not override into the stage snapshot, then mark the stage
snapshot committed. -/
def sqlFinalize (db : SqlDb) (repo : SqlConfigRepo) : SqlDb :=
  let sid := repo.stage_snapshot_id
  let db1 :=
    match repo.parent_snapshot with
    | none => db
    | some pid =>
        let stageKeys := (itemsFor db.items sid).map Prod.fst
        let rows := inheritRows (itemsFor db.items pid) stageKeys
        { db with items := db.items ++ rows.map (fun kb => ((sid, kb.1), kb.2)) }
  match alget db1.snapshots sid with
  | some pc => { db1 with snapshots := alset db1.snapshots sid (pc.1, true) }
  | none => db1

/-- SqlConfigRepo.commit: finalize the stage unconditionally (there is no
clean-stage guard), point the current branch row at the stage snapshot id
(insert if absent), then open a fresh stage snapshot parented at the
just-committed id. -/
def sqlCommit (db : SqlDb) (repo : SqlConfigRepo) : SqlDb × SqlConfigRepo :=
  let db1 := sqlFinalize db repo
  let db2 := { db1 with branches := alset db1.branches repo.branch repo.stage_snapshot_id }
  let nsid := db2.next_snapshot_id
  let db3 := { db2 with
                 snapshots := alset db2.snapshots nsid (some repo.stage_snapshot_id, false),
                 next_snapshot_id := nsid + 1 }
  (db3, { repo with parent_snapshot := some repo.stage_snapshot_id,
                    stage_snapshot_id := nsid })

/-- SqlConfigRepo._init_stage_from_branch: read the branch row (absent
rows give a None parent), then allocate a fresh uncommitted stage
snapshot parented there. -/
def sqlInitStageFromBranch (db : SqlDb) (branch : String) :
    SqlDb × SqlConfigRepo :=
  let pid := alget db.branches branch
  let nsid := db.next_snapshot_id
  ({ db with snapshots := alset db.snapshots nsid (pid, false),
             next_snapshot_id := nsid + 1 },
   { branch := branch, parent_snapshot := pid, stage_snapshot_id := nsid })

/-- SqlConfigRepo construction without a resume id: bind a stage to the
named branch via _init_stage_from_branch. -/
def sqlRepoNew (db : SqlDb) (branch : String) : SqlDb × SqlConfigRepo :=
  sqlInitStageFromBranch db branch

/-- SqlConfigRepo.switch_branch: RuntimeError while dirty; else re-point
to the named branch and open a fresh stage there.  An unknown branch name
is not rejected: it simply yields a stage with no parent. -/
def sqlSwitchBranch (db : SqlDb) (repo : SqlConfigRepo) (branch : String) :
    Except RepoError (SqlDb × SqlConfigRepo) :=
  if sqlIsDirty db repo then Except.error RepoError.dirtyStage
  else Except.ok (sqlInitStageFromBranch db branch)

/-- SqlConfigRepo.create_branch: ValueError when the new name exists;
ValueError when the source branch (from_branch, defaulting to the current
branch) has no row; else insert a branch row sharing the source head. -/
def sqlCreateBranch (db : SqlDb) (repo : SqlConfigRepo) (new_branch : String)
    (from_branch : Option String) : Except RepoError SqlDb :=
  if (alget db.branches new_branch).isSome then
    Except.error (RepoError.branchExists new_branch)
  else
    let source_name := from_branch.getD repo.branch
    match alget db.branches source_name with
    | none => Except.error (RepoError.missingBranch source_name)
    | some sid => Except.ok { db with branches := alset db.branches new_branch sid }

/-- SqlConfigRepo.list_branches: the names of all branch rows. -/
def sqlListBranches (db : SqlDb) : List String :=
  db.branches.map Prod.fst

/-- SqlConfigRepo.reload: re-read the branch row and re-point the stage
parent at it; the stage snapshot and its rows are left untouched. -/
def sqlReload (db : SqlDb) (repo : SqlConfigRepo) : SqlConfigRepo :=
  { repo with parent_snapshot := alget db.branches repo.branch }

/-- SqlConfigRepo.merge: not overridden, so the base-class
ConfigRepo.merge (base.py) runs and raises NotImplementedError. -/
def sqlMerge (_ : SqlDb) (_ : SqlConfigRepo) (_ : String) :
    Except RepoError (SqlDb × SqlConfigRepo) :=
  Except.error RepoError.notImplemented

/-! ## Scenario runners used by individual claims -/

/-- The merge scenario of tests/test_merge.py (conflict override) on the
memory backend: base commit of key1, dev branch commit of key1, master
commit of key1, then merge dev into master. -/
def c1MergeRun : Except RepoError MemoryConfigRepo := do
  let r0 := MemoryConfigRepo.init [] "master"
  let r1 := (r0.set "key1" (some [118, 49])).commit
  let r2 ← r1.create_branch "dev" none
  let r3 ← r2.switch_branch "dev"
  let r4 := (r3.set "key1" (some [118, 50])).commit
  let r5 ← r4.switch_branch "master"
  let r6 := (r5.set "key1" (some [118, 51])).commit
  r6.merge "dev"

/-- Tombstone-erasure sequence on the memory backend:
set(k, v); commit; set(k, None); commit; get(k). -/
def c2MemRun (k : Key) (v : Blob) : Option Blob :=
  (((((MemoryConfigRepo.init [] "master").set k (some v)).commit).set k
      none).commit).get k

/-- Tombstone-erasure sequence on the relational backend from an empty
store: set(k, v); commit; set(k, None); commit; get(k). -/
def c2SqlRun (k : Key) (v : Blob) : Option Blob :=
  let dbr0 := sqlRepoNew emptySqlDb "master"
  let db1 := sqlSet dbr0.1 dbr0.2 k (some v)
  let dbr2 := sqlCommit db1 dbr0.2
  let db3 := sqlSet dbr2.1 dbr2.2 k none
  let dbr4 := sqlCommit db3 dbr2.2
  sqlStageGet dbr4.1 dbr4.2 k

/-- Relational store and repo after set(k, v); commit from an empty
store: a committed head on master and a clean stage. -/
def c3SqlMid (k : Key) (v : Blob) : SqlDb × SqlConfigRepo :=
  let dbr0 := sqlRepoNew emptySqlDb "master"
  let db1 := sqlSet dbr0.1 dbr0.2 k (some v)
  sqlCommit db1 dbr0.2

/-- The master branch head id after the first commit and after a second
commit on the (clean) stage. -/
def c3SqlHeads (k : Key) (v : Blob) : Option Nat × Option Nat :=
  let mid := c3SqlMid k v
  let again := sqlCommit mid.1 mid.2
  (alget mid.1.branches "master", alget again.1.branches "master")

/-- Memory backend: stage an override for x over a committed master
value, then reload and read x. -/
def c4MemRun : Option Blob :=
  (((MemoryConfigRepo.init [("master", [("x", [9])])] "master").set "x"
      (some [1])).reload).get "x"

/-- Memory backend: with k committed at [9], set(k, [1]) then
set(k, None) in the same stage, and read k. -/
def c5MemRun : Option Blob :=
  ((((MemoryConfigRepo.init [("master", [("k", [9])])] "master").set "k"
      (some [1])).set "k" none)).get "k"

/-- Memory backend: switch a clean repo to a branch name absent from the
store. -/
def c6MemRun : Except RepoError MemoryConfigRepo :=
  (MemoryConfigRepo.init [("master", [("x", [7])])] "master").switch_branch
    "nosuch"

/-- Relational backend: commit x on master from an empty store, then
switch to an arbitrary branch name and read an arbitrary key. -/
def c6SqlRun (b : String) (k : Key) : Except RepoError (Option Blob) :=
  let dbr0 := sqlRepoNew emptySqlDb "master"
  let db1 := sqlSet dbr0.1 dbr0.2 "x" (some [7])
  let dbr2 := sqlCommit db1 dbr0.2
  (sqlSwitchBranch dbr2.1 dbr2.2 b).map (fun p => sqlStageGet p.1 p.2 k)

/-- Memory backend: create_branch dev from the default source on a fresh
repo whose store is empty, so the current branch master has no committed
head. -/
def c7MemRun : Except RepoError MemoryConfigRepo :=
  (MemoryConfigRepo.init [] "master").create_branch "dev" none

/-- Branch-isolation sequence on the memory backend over an arbitrary
seed store: create dev from master, commit v2 to k on dev, switch back
to master and read k. -/
def c9MemRun (m : List (Key × List (Key × Blob))) (k : Key) (v2 : Blob) :
    Except RepoError (Option Blob) := do
  let r := MemoryConfigRepo.init m "master"
  let r1 ← r.create_branch "dev" (some "master")
  let r2 ← r1.switch_branch "dev"
  let r3 := (r2.set k (some v2)).commit
  let r5 ← r3.switch_branch "master"
  Except.ok (r5.get k)

/-- Branch-isolation sequence on the relational backend from an empty
store: commit v1 to k on master, create dev from master, commit v2 to k
on dev, switch back to master and read k. -/
def c9SqlRun (k : Key) (v1 v2 : Blob) : Except RepoError (Option Blob) := do
  let dbr0 := sqlRepoNew emptySqlDb "master"
  let db1 := sqlSet dbr0.1 dbr0.2 k (some v1)
  let dbr2 := sqlCommit db1 dbr0.2
  let db3 ← sqlCreateBranch dbr2.1 dbr2.2 "dev" (some "master")
  let dbr4 ← sqlSwitchBranch db3 dbr2.2 "dev"
  let db5 := sqlSet dbr4.1 dbr4.2 k (some v2)
  let dbr6 := sqlCommit db5 dbr4.2
  let dbr7 ← sqlSwitchBranch dbr6.1 dbr6.2 "master"
  Except.ok (sqlStageGet dbr7.1 dbr7.2 k)

/-! ## Helper lemmas -/

@[simp] theorem alget_nil {κ α : Type} [DecidableEq κ] (k : κ) :
    alget ([] : List (κ × α)) k = none := rfl

@[simp] theorem alget_cons {κ α : Type} [DecidableEq κ] (k' : κ) (v : α)
    (rest : List (κ × α)) (k : κ) :
    alget ((k', v) :: rest) k = if k' = k then some v else alget rest k := rfl

@[simp] theorem alset_nil {κ α : Type} [DecidableEq κ] (k : κ) (v : α) :
    alset ([] : List (κ × α)) k v = [(k, v)] := rfl

@[simp] theorem alset_cons {κ α : Type} [DecidableEq κ] (k' : κ) (v' : α)
    (rest : List (κ × α)) (k : κ) (v : α) :
    alset ((k', v') :: rest) k v =
      if k' = k then (k', v) :: rest else (k', v') :: alset rest k v := rfl

@[simp] theorem aldel_nil {κ α : Type} [DecidableEq κ] (k : κ) :
    aldel ([] : List (κ × α)) k = [] := rfl

@[simp] theorem aldel_cons {κ α : Type} [DecidableEq κ] (k' : κ) (v' : α)
    (rest : List (κ × α)) (k : κ) :
    aldel ((k', v') :: rest) k =
      if k' = k then rest else (k', v') :: aldel rest k := rfl

@[simp] theorem itemsFor_nil (sid : Nat) : itemsFor [] sid = [] := rfl

@[simp] theorem itemsFor_cons (p : Nat) (k : Key) (b : Option Nat)
    (rest : List ((Nat × Key) × Option Nat)) (sid : Nat) :
    itemsFor (((p, k), b) :: rest) sid =
      if p = sid then (k, b) :: itemsFor rest sid else itemsFor rest sid := rfl

@[simp] theorem keyMem_nil (k : Key) : keyMem k [] = false := rfl

@[simp] theorem keyMem_cons (k k' : Key) (rest : List Key) :
    keyMem k (k' :: rest) = if k' = k then true else keyMem k rest := rfl

@[simp] theorem inheritRows_nil (stageKeys : List Key) :
    inheritRows [] stageKeys = [] := rfl

@[simp] theorem inheritRows_cons (k : Key) (b : Option Nat)
    (rest : List (Key × Option Nat)) (stageKeys : List Key) :
    inheritRows ((k, b) :: rest) stageKeys =
      if keyMem k stageKeys then inheritRows rest stageKeys
      else (k, b) :: inheritRows rest stageKeys := rfl

theorem alget_alset_self {κ α : Type} [DecidableEq κ] (m : List (κ × α))
    (k : κ) (v : α) : alget (alset m k v) k = some v := by
  induction m with
  | nil => simp [alget, alset]
  | cons hd tl ih =>
      obtain ⟨k', v'⟩ := hd
      by_cases h : k' = k <;> simp [alget, alset, h, ih]

theorem alget_alset_ne {κ α : Type} [DecidableEq κ] (m : List (κ × α))
    (kw kq : κ) (v : α) (h : kw ≠ kq) :
    alget (alset m kw v) kq = alget m kq := by
  induction m with
  | nil => simp [alget, alset, h]
  | cons hd tl ih =>
      obtain ⟨k', v'⟩ := hd
      by_cases h' : k' = kw
      · subst h'
        simp [alget, alset, h]
      · simp [alget, alset, h', ih]

theorem alset_ne_nil {κ α : Type} [DecidableEq κ] (m : List (κ × α))
    (k : κ) (v : α) : alset m k v ≠ [] := by
  cases m with
  | nil => simp [alset]
  | cons hd tl =>
      obtain ⟨k', v'⟩ := hd
      by_cases h : k' = k <;> simp [alset, h]

theorem mem_keys_alset {κ α : Type} [DecidableEq κ] (m : List (κ × α))
    (k : κ) (v : α) : k ∈ (alset m k v).map Prod.fst := by
  induction m with
  | nil => simp only [alset_nil, List.map_cons, List.mem_cons]; exact Or.inl trivial
  | cons hd tl ih =>
      obtain ⟨k', v'⟩ := hd
      by_cases h : k' = k
      · subst h
        rw [alset_cons, if_pos rfl]
        simp only [List.map_cons, List.mem_cons]
        exact Or.inl trivial
      · rw [alset_cons, if_neg h]
        simp only [List.map_cons, List.mem_cons]
        exact Or.inr ih

theorem mem_keys_of_alget_isSome {κ α : Type} [DecidableEq κ]
    (m : List (κ × α)) (k : κ) (h : (alget m k).isSome) :
    k ∈ m.map Prod.fst := by
  induction m with
  | nil => simp [alget] at h
  | cons hd tl ih =>
      obtain ⟨k', v'⟩ := hd
      simp only [List.map_cons, List.mem_cons]
      by_cases h' : k' = k
      · exact Or.inl h'.symm
      · simp only [alget_cons, if_neg h'] at h
        exact Or.inr (ih h)

theorem alget_isSome_of_mem_keys {κ α : Type} [DecidableEq κ]
    (m : List (κ × α)) (k : κ) (h : k ∈ m.map Prod.fst) :
    (alget m k).isSome := by
  induction m with
  | nil => simp at h
  | cons hd tl ih =>
      obtain ⟨k', v'⟩ := hd
      simp only [List.map_cons, List.mem_cons] at h
      by_cases h' : k' = k
      · simp [alget, h']
      · rcases h with h | h
        · exact absurd h.symm h'
        · rw [alget_cons, if_neg h']
          exact ih h

theorem except_bind_ok {ε α β : Type} (a : α) (f : α → Except ε β) :
    (Except.ok a >>= f : Except ε β) = f a := rfl

theorem except_map_ok {ε α β : Type} (a : α) (f : α → β) :
    (Except.ok a).map f = (Except.ok (f a) : Except ε β) := rfl

theorem itemsFor_ne_nil_of_alget (items : List ((Nat × Key) × Option Nat))
    (sid : Nat) (k : Key) (x : Option Nat)
    (h : alget items (sid, k) = some x) : itemsFor items sid ≠ [] := by
  induction items with
  | nil => simp [alget] at h
  | cons hd tl ih =>
      obtain ⟨⟨p, k'⟩, b⟩ := hd
      by_cases hp : (p, k') = (sid, k)
      · obtain ⟨hp1, hp2⟩ := Prod.mk.injEq .. ▸ hp
        subst hp1
        simp
      · rw [alget_cons, if_neg hp] at h
        by_cases hsid : p = sid
        · simp [hsid]
        · simpa [itemsFor_cons, hsid] using ih h

theorem sqlSet_some_spec (db : SqlDb) (repo : SqlConfigRepo) (k : Key)
    (v : Blob) :
    ∃ bid,
      alget (sqlSet db repo k (some v)).items (repo.stage_snapshot_id, k) =
        some (some bid) ∧
      alget (sqlSet db repo k (some v)).blobs bid = some v := by
  cases h : alget db.items (repo.stage_snapshot_id, k) with
  | none =>
      exact ⟨db.next_blob_id, by simp [sqlSet, h, alget_alset_self],
        by simp [sqlSet, h, alget_alset_self]⟩
  | some bidOpt =>
      cases bidOpt with
      | none =>
          exact ⟨db.next_blob_id, by simp [sqlSet, h, alget_alset_self],
            by simp [sqlSet, h, alget_alset_self]⟩
      | some bid =>
          cases hb : alget db.blobs bid with
          | none =>
              exact ⟨db.next_blob_id, by simp [sqlSet, h, hb, alget_alset_self],
                by simp [sqlSet, h, hb, alget_alset_self]⟩
          | some b0 =>
              exact ⟨bid, by simp [sqlSet, h, hb],
                by simp [sqlSet, h, hb, alget_alset_self]⟩

theorem sqlStageGet_sqlSet_self (db : SqlDb) (repo : SqlConfigRepo) (k : Key)
    (v : Blob) : sqlStageGet (sqlSet db repo k (some v)) repo k = some v := by
  obtain ⟨bid, h1, h2⟩ := sqlSet_some_spec db repo k v
  simp [sqlStageGet, h1, h2]

theorem sqlIsDirty_sqlSet_some (db : SqlDb) (repo : SqlConfigRepo) (k : Key)
    (v : Blob) : sqlIsDirty (sqlSet db repo k (some v)) repo = true := by
  obtain ⟨bid, h1, _⟩ := sqlSet_some_spec db repo k v
  have hne := itemsFor_ne_nil_of_alget _ _ _ _ h1
  cases hc : itemsFor (sqlSet db repo k (some v)).items repo.stage_snapshot_id with
  | nil => exact absurd hc hne
  | cons a l => simp [sqlIsDirty, hc]

/-! ## Claims -/

/-- Claim C1: the spec requires merge(source) followed by commit to make
every key of the source branch head win on the current branch, on every
backend.  The memory and relational backends do not override
ConfigRepo.merge, which raises NotImplementedError, so the tested merge
sequence errors out instead: evaluation of the test_merge scenario on the
memory backend. -/
theorem C1_merge_unimplemented :
    c1MergeRun = Except.error RepoError.notImplemented := rfl

/-- Claim C2 counterexample: on the memory backend the sequence
set(k, v); commit; set(k, None); commit; get(k) at k = "k", v = [1]
returns some [1], not absent as the claim states. -/
theorem C2_counterexample :
    c2MemRun "k" [1] = some [1] ∧ c2MemRun "k" [1] ≠ none := by decide

/-- Claim C2 amended: on the relational backend the sequence
set(k, v); commit; set(k, None); commit; get(k) returns absent; on the
memory backend the same sequence is a no-op after the first commit
(set(k, None) on a stage that does not track k does nothing) and get(k)
still returns v. -/
theorem C2_amended (k : Key) (v : Blob) :
    c2SqlRun k v = none ∧ c2MemRun k v = some v := by
  constructor
  · simp [c2SqlRun, sqlRepoNew, sqlInitStageFromBranch, sqlSet, sqlCommit,
      sqlFinalize, sqlIsDirty, sqlStageGet, sqlSnapshotGet, emptySqlDb,
      Prod.mk.injEq]
  · simp [c2MemRun, MemoryConfigRepo.init, MemoryConfigRepo.reload,
      MemoryConfigRepo.set, MemoryConfigRepo.commit, MemoryConfigRepo.get,
      MemoryConfigStage.set, MemoryConfigStage.get, MemoryConfigStage.is_dirty,
      MemoryConfigStage.freeze, MemoryConfigSnapshot.get]

/-- Claim C3 counterexample: on the relational backend, after
set("a", [1]); commit the stage is clean, yet a second commit re-points
the master branch from snapshot id 0 to snapshot id 1, so consecutive
commits do not leave the branch at the same head. -/
theorem C3_counterexample :
    sqlIsDirty (c3SqlMid "a" [1]).1 (c3SqlMid "a" [1]).2 = false ∧
    c3SqlHeads "a" [1] = (some 0, some 1) ∧
    (some 0 : Option Nat) ≠ some 1 := by decide

/-- Claim C3 amended: commit on a clean stage is a no-op on the memory
backend (the repo value is returned unchanged), but on the relational
backend commit has no clean-stage guard: even with a clean stage it
finalizes the stage snapshot and re-points the branch at it, so two
consecutive commits yield two distinct branch head ids (0 then 1 from an
empty store). -/
theorem C3_amended :
    (∀ r : MemoryConfigRepo, r.is_dirty = false → r.commit = r) ∧
    (∀ (k : Key) (v : Blob),
      sqlIsDirty (c3SqlMid k v).1 (c3SqlMid k v).2 = false ∧
      c3SqlHeads k v = (some 0, some 1)) := by
  constructor
  · intro r h
    have h' : r.stage.is_dirty = false := h
    simp [MemoryConfigRepo.commit, h']
  · intro k v
    constructor
    · simp [c3SqlMid, sqlRepoNew, sqlInitStageFromBranch, sqlSet, sqlCommit,
        sqlFinalize, sqlIsDirty, emptySqlDb, Prod.mk.injEq]
    · simp [c3SqlHeads, c3SqlMid, sqlRepoNew, sqlInitStageFromBranch, sqlSet,
        sqlCommit, sqlFinalize, sqlIsDirty, emptySqlDb, Prod.mk.injEq]

/-- Claim C3 amended witness: the memory no-op at a concrete clean repo
and the relational head change at k = "a", v = [1]. -/
theorem C3_amended_witness :
    (MemoryConfigRepo.init [("master", [("x", [1])])] "master").is_dirty =
        false ∧
    (MemoryConfigRepo.init [("master", [("x", [1])])] "master").commit =
      MemoryConfigRepo.init [("master", [("x", [1])])] "master" ∧
    c3SqlHeads "a" [1] = (some 0, some 1) :=
  ⟨by decide,
   C3_amended.1 (MemoryConfigRepo.init [("master", [("x", [1])])] "master")
     (by decide),
   (C3_amended.2 "a" [1]).2⟩

/-- Claim C4 counterexample: on the memory backend, reload resets the
stage: with master committed at x = [9], after set("x", [1]) a reload
makes get("x") return the committed [9] instead of the staged [1]. -/
theorem C4_counterexample :
    c4MemRun = some [9] ∧ c4MemRun ≠ some [1] := by decide

/-- Claim C4 amended: on the relational backend reload keeps every stage
override (it only re-reads the branch row into the stage parent), so get
on an overridden key is unchanged; on the memory backend reload resets
the stage to an empty override dict, discarding overrides. -/
theorem C4_amended :
    (∀ (db : SqlDb) (repo : SqlConfigRepo) (k : Key),
      (alget db.items (repo.stage_snapshot_id, k)).isSome = true →
      sqlStageGet db (sqlReload db repo) k = sqlStageGet db repo k) ∧
    (∀ r : MemoryConfigRepo, r.reload.stage.data = []) := by
  constructor
  · intro db repo k h
    obtain ⟨x, hx⟩ := Option.isSome_iff_exists.mp h
    cases x with
    | none => simp [sqlStageGet, sqlReload, hx]
    | some bid => simp [sqlStageGet, sqlReload, hx]
  · intro r
    simp [MemoryConfigRepo.reload]

/-- Claim C4 amended witness: a relational state with an override on x
whose read survives reload. -/
theorem C4_amended_witness :
    (alget (SqlDb.mk [(0, [1])] [(0, (none, false))] [((0, "x"), some 0)] []
        1 1).items
      ((SqlConfigRepo.mk "master" none 0).stage_snapshot_id, "x")).isSome =
        true ∧
    sqlStageGet (SqlDb.mk [(0, [1])] [(0, (none, false))] [((0, "x"), some 0)]
        [] 1 1)
      (sqlReload (SqlDb.mk [(0, [1])] [(0, (none, false))] [((0, "x"), some 0)]
        [] 1 1) (SqlConfigRepo.mk "master" none 0)) "x" =
    sqlStageGet (SqlDb.mk [(0, [1])] [(0, (none, false))] [((0, "x"), some 0)]
        [] 1 1) (SqlConfigRepo.mk "master" none 0) "x" :=
  ⟨by decide,
   C4_amended.1 (SqlDb.mk [(0, [1])] [(0, (none, false))] [((0, "x"), some 0)]
     [] 1 1) (SqlConfigRepo.mk "master" none 0) "x" (by decide)⟩

/-- Claim C5 counterexample: on the memory backend, with k committed at
[9], the sequence set(k, [1]); set(k, None) removes the override instead
of installing a tombstone, so get(k) returns the committed [9] instead of
absent. -/
theorem C5_counterexample :
    c5MemRun = some [9] ∧ c5MemRun ≠ none := by decide

/-- Claim C5 amended: on the relational backend, set(k, v1) followed by
set(k, None) in the same stage nulls the blob_id of the tracked
SnapshotItem (a tombstone) and get(k) is absent; on the memory backend
the second set deletes the override, so get(k) falls back to the parent
snapshot, i.e. the committed value. -/
theorem C5_amended :
    (∀ (db : SqlDb) (repo : SqlConfigRepo) (k : Key) (v1 : Blob),
      alget (sqlSet (sqlSet db repo k (some v1)) repo k none).items
          (repo.stage_snapshot_id, k) = some none ∧
      sqlStageGet (sqlSet (sqlSet db repo k (some v1)) repo k none) repo k =
        none) ∧
    (∀ (m : List (Key × List (Key × Blob))) (k : Key) (v1 : Blob),
      (((MemoryConfigRepo.init m "master").set k (some v1)).set k none).get k =
        (MemoryConfigRepo.init m "master").get k) := by
  constructor
  · intro db repo k v1
    obtain ⟨bid, h1, -⟩ := sqlSet_some_spec db repo k v1
    generalize hg : sqlSet db repo k (some v1) = db1 at h1 ⊢
    constructor
    · simp [sqlSet, h1, alget_alset_self]
    · simp [sqlSet, sqlStageGet, h1, alget_alset_self]
  · intro m k v1
    simp [MemoryConfigRepo.init, MemoryConfigRepo.reload, MemoryConfigRepo.set,
      MemoryConfigRepo.get, MemoryConfigStage.set, MemoryConfigStage.get,
      MemoryConfigSnapshot.get, alget_alset_self]

/-- Claim C6 counterexample: on the memory backend, switch_branch to the
unknown name nosuch on a clean repo succeeds (no MissingBranchError) and
silently re-points the repo to an empty state: get("x") is absent even
though master holds x. -/
theorem C6_counterexample :
    c6MemRun.map (fun r => r.get "x") = Except.ok none := rfl

/-- Claim C6 amended: switch_branch on a clean repo to a branch name the
store does not know raises nothing on the memory and relational backends:
the repo is silently re-pointed to an empty state where every get is
absent (memory reloads an empty dict, the relational backend opens a
stage with no parent snapshot). -/
theorem C6_amended :
    (∀ (r : MemoryConfigRepo) (b : String) (k : Key),
      r.is_dirty = false → alget r.repo b = none →
      (r.switch_branch b).map (fun r2 => MemoryConfigRepo.get r2 k) =
        Except.ok none) ∧
    (∀ (b : String) (k : Key), b ≠ "master" → c6SqlRun b k = Except.ok none) := by
  constructor
  · intro r b k hd hb
    have hd' : r.stage.is_dirty = false := hd
    simp [MemoryConfigRepo.switch_branch, hd', MemoryConfigRepo.reload,
      MemoryConfigRepo.get, MemoryConfigStage.get, MemoryConfigSnapshot.get,
      hb, except_map_ok]
  · intro b k h
    have h2 : "master" ≠ b := fun e => h e.symm
    simp [c6SqlRun, sqlRepoNew, sqlInitStageFromBranch, sqlSet, sqlCommit,
      sqlFinalize, sqlIsDirty, sqlSwitchBranch, sqlStageGet, sqlSnapshotGet,
      emptySqlDb, Prod.mk.injEq, h2, except_map_ok]

/-- Claim C6 amended witness: the memory repo of the counterexample and
the relational run at branch nosuch, key y. -/
theorem C6_amended_witness :
    ((MemoryConfigRepo.init [("master", [("x", [7])])] "master").switch_branch
        "nosuch").map (fun r2 => MemoryConfigRepo.get r2 "x") =
      Except.ok none ∧
    c6SqlRun "nosuch" "y" = Except.ok none :=
  ⟨C6_amended.1 (MemoryConfigRepo.init [("master", [("x", [7])])] "master")
     "nosuch" "x" (by decide) (by decide),
   C6_amended.2 "nosuch" "y" (by decide)⟩

/-- Claim C7 counterexample: on the memory backend, create_branch dev
from the current branch master, whose branch has no committed head
(empty store), succeeds and creates dev, instead of failing with
MissingBranchError and creating nothing. -/
theorem C7_counterexample :
    c7MemRun.map MemoryConfigRepo.list_branches = Except.ok ["dev"] := rfl

/-- Claim C7 amended: both backends fail with BranchExistsError when the
new name already exists; the relational backend fails with
MissingBranchError when the source branch has no row (and the error path
creates nothing); the memory backend does not check the source: a missing
source yields a new branch with empty content. -/
theorem C7_amended :
    (∀ (r : MemoryConfigRepo) (n : String) (f : Option String),
      (alget r.repo n).isSome = true →
      r.create_branch n f = Except.error (RepoError.branchExists n)) ∧
    (∀ (db : SqlDb) (repo : SqlConfigRepo) (n : String) (f : Option String),
      (alget db.branches n).isSome = true →
      sqlCreateBranch db repo n f = Except.error (RepoError.branchExists n)) ∧
    (∀ (db : SqlDb) (repo : SqlConfigRepo) (n : String) (f : Option String),
      alget db.branches n = none →
      alget db.branches (f.getD repo.branch) = none →
      sqlCreateBranch db repo n f =
        Except.error (RepoError.missingBranch (f.getD repo.branch))) ∧
    (∀ (r : MemoryConfigRepo) (n : String) (f : Option String),
      alget r.repo n = none →
      alget r.repo (f.getD r.branch) = none →
      r.create_branch n f = Except.ok { r with repo := alset r.repo n [] }) := by
  refine ⟨?_, ?_, ?_, ?_⟩
  · intro r n f h
    simp [MemoryConfigRepo.create_branch, h]
  · intro db repo n f h
    simp [sqlCreateBranch, h]
  · intro db repo n f h1 h2
    simp [sqlCreateBranch, h1, h2]
  · intro r n f h1 h2
    simp [MemoryConfigRepo.create_branch, h1, h2]

/-- Claim C7 amended witness: the three error and silent-creation paths
at concrete stores. -/
theorem C7_amended_witness :
    (MemoryConfigRepo.init [("master", [])] "master").create_branch "master"
        none = Except.error (RepoError.branchExists "master") ∧
    sqlCreateBranch emptySqlDb (SqlConfigRepo.mk "master" none 0) "dev" none =
      Except.error (RepoError.missingBranch "master") ∧
    (MemoryConfigRepo.init [] "master").create_branch "dev" none =
      Except.ok { MemoryConfigRepo.init [] "master" with repo := [("dev", [])] } :=
  ⟨C7_amended.1 (MemoryConfigRepo.init [("master", [])] "master") "master" none
     (by decide),
   C7_amended.2.2.1 emptySqlDb (SqlConfigRepo.mk "master" none 0) "dev" none
     (by decide) (by decide),
   C7_amended.2.2.2 (MemoryConfigRepo.init [] "master") "dev" none (by decide)
     (by decide)⟩

/-- Claim C8: after set(k, v) the stage is dirty on both embeddable
backends, so switch_branch(b) fails with the dirty-stage error before any
mutation; the staged override survives (get(k) = v) and the current
branch is unchanged. -/
theorem C8_dirty_guard :
    (∀ (r : MemoryConfigRepo) (k : Key) (v : Blob) (b : String),
      (r.set k (some v)).switch_branch b = Except.error RepoError.dirtyStage ∧
      (r.set k (some v)).get k = some v ∧
      (r.set k (some v)).branch = r.branch) ∧
    (∀ (db : SqlDb) (repo : SqlConfigRepo) (k : Key) (v : Blob) (b : String),
      sqlSwitchBranch (sqlSet db repo k (some v)) repo b =
        Except.error RepoError.dirtyStage ∧
      sqlStageGet (sqlSet db repo k (some v)) repo k = some v) := by
  constructor
  · intro r k v b
    have hlen : 0 < (alset r.stage.data k v).length :=
      List.length_pos.mpr (alset_ne_nil _ _ _)
    refine ⟨?_, ?_, rfl⟩
    · simp [MemoryConfigRepo.set, MemoryConfigStage.set,
        MemoryConfigRepo.switch_branch, MemoryConfigStage.is_dirty, hlen]
    · simp [MemoryConfigRepo.set, MemoryConfigStage.set, MemoryConfigRepo.get,
        MemoryConfigStage.get, alget_alset_self]
  · intro db repo k v b
    refine ⟨?_, sqlStageGet_sqlSet_self db repo k v⟩
    simp [sqlSwitchBranch, sqlIsDirty_sqlSet_some]

/-- Claim C9: branch isolation.  On the memory backend over any seed
store without a dev branch, create dev from master, commit v2 to k on
dev, then switch back to master: get(k) equals the pre-branch value on
master.  On the relational backend from an empty store with k committed
at v1 on master, the same sequence reads back v1, not v2. -/
theorem C9_branch_isolation :
    (∀ (m : List (Key × List (Key × Blob))) (k : Key) (v2 : Blob),
      alget m "dev" = none →
      c9MemRun m k v2 = Except.ok ((MemoryConfigRepo.init m "master").get k)) ∧
    (∀ (k : Key) (v1 v2 : Blob), c9SqlRun k v1 v2 = Except.ok (some v1)) := by
  constructor
  · intro m k v2 hdev
    simp [c9MemRun, MemoryConfigRepo.init, MemoryConfigRepo.reload,
      MemoryConfigRepo.create_branch, MemoryConfigRepo.switch_branch,
      MemoryConfigRepo.set, MemoryConfigRepo.commit, MemoryConfigRepo.get,
      MemoryConfigStage.set, MemoryConfigStage.get, MemoryConfigStage.is_dirty,
      MemoryConfigStage.freeze, MemoryConfigSnapshot.get, hdev,
      alget_alset_self, alget_alset_ne, except_bind_ok]
  · intro k v1 v2
    simp [c9SqlRun, sqlRepoNew, sqlInitStageFromBranch, sqlSet, sqlCommit,
      sqlFinalize, sqlIsDirty, sqlSwitchBranch, sqlCreateBranch, sqlStageGet,
      sqlSnapshotGet, emptySqlDb, Prod.mk.injEq, except_bind_ok]

/-- Claim C9 witness: the isolation runs at concrete inputs. -/
theorem C9_witness :
    c9MemRun [] "k" [5] =
      Except.ok ((MemoryConfigRepo.init [] "master").get "k") ∧
    c9SqlRun "k" [1] [2] = Except.ok (some [1]) :=
  ⟨C9_branch_isolation.1 [] "k" [5] rfl, C9_branch_isolation.2 "k" [1] [2]⟩

/-- Claim C10: on the memory backend, list_branches is exactly the key
list of the backing branch map; construction over a seed does not touch
the map; set never changes list_branches; switch_branch on a clean repo
keeps list_branches; a dirty commit stores an entry for the current
branch; create_branch stores an entry for the new branch. -/
theorem C10_list_branches :
    (∀ (m : List (Key × List (Key × Blob))) (b : String),
      (MemoryConfigRepo.init m b).list_branches = m.map Prod.fst) ∧
    (∀ (r : MemoryConfigRepo) (k : Key) (v : Option Blob),
      (r.set k v).list_branches = r.list_branches) ∧
    (∀ (r : MemoryConfigRepo) (b : String),
      r.is_dirty = false →
      (r.switch_branch b).map MemoryConfigRepo.list_branches =
        Except.ok r.list_branches) ∧
    (∀ r : MemoryConfigRepo,
      r.is_dirty = true → r.branch ∈ (r.commit).list_branches) ∧
    (∀ (r rr : MemoryConfigRepo) (n : String) (f : Option String),
      r.create_branch n f = Except.ok rr → n ∈ rr.list_branches) := by
  refine ⟨?_, ?_, ?_, ?_, ?_⟩
  · intro m b
    rfl
  · intro r k v
    rfl
  · intro r b h
    have h' : r.stage.is_dirty = false := h
    simp [MemoryConfigRepo.switch_branch, h', MemoryConfigRepo.reload,
      MemoryConfigRepo.list_branches, except_map_ok]
  · intro r h
    have h' : r.stage.is_dirty = true := h
    simp only [MemoryConfigRepo.commit, h', if_true,
      MemoryConfigRepo.list_branches]
    exact mem_keys_alset _ _ _
  · intro r rr n f h
    by_cases hn : (alget r.repo n).isSome = true
    · simp [MemoryConfigRepo.create_branch, hn] at h
    · simp [MemoryConfigRepo.create_branch, hn] at h
      subst h
      exact mem_keys_alset _ _ _

/-- Claim C10 witness: the clean switch, the dirty commit and the branch
creation at concrete repos. -/
theorem C10_witness :
    ((MemoryConfigRepo.init [("master", [("x", [1])])] "master").switch_branch
        "master").map MemoryConfigRepo.list_branches =
      Except.ok
        (MemoryConfigRepo.init [("master", [("x", [1])])]
            "master").list_branches ∧
    ((MemoryConfigRepo.init [] "master").set "x" (some [1])).branch ∈
      (((MemoryConfigRepo.init [] "master").set "x"
          (some [1])).commit).list_branches ∧
    "dev" ∈
      (MemoryConfigRepo.mk [("dev", [])] "master" ⟨[]⟩
          ⟨⟨[]⟩, []⟩).list_branches :=
  ⟨C10_list_branches.2.2.1 (MemoryConfigRepo.init [("master", [("x", [1])])]
      "master") "master" (by decide),
   C10_list_branches.2.2.2.1 ((MemoryConfigRepo.init [] "master").set "x"
      (some [1])) (by decide),
   C10_list_branches.2.2.2.2 (MemoryConfigRepo.init [] "master")
     (MemoryConfigRepo.mk [("dev", [])] "master" ⟨[]⟩ ⟨⟨[]⟩, []⟩) "dev" none
     rfl⟩

end ConfigPlane
